import Mathlib

/-!
Shallow embedding of the document-detection pipeline in
`src/src/app/app.component.ts` (Angular component `AppComponent`).

Numbers are modelled as exact rationals (`ℚ`): the TypeScript code performs
ordinary arithmetic and comparisons on JS numbers, and every property below
concerns comparisons and rational arithmetic that behave identically over `ℚ`.
The OpenCV primitives (grayscale conversion, blur, Canny, contour extraction,
polygon approximation, bounding rectangles, the Laplacian filter) are external
collaborators: they are abstracted as the per-tick input data they produce
(a sharpness sample, and per contour the vertex count / convexity flag /
native bounding rectangle of its approximated polygon).
-/

/-- `Rect` `{x, y, width, height}`, as built at `app.component.ts:207-212`. -/
structure Rect where
  x : ℚ
  y : ℚ
  width : ℚ
  height : ℚ
deriving DecidableEq, Repr

/-- Per-contour data produced by the OpenCV chain `arcLength` /
`approxPolyDP` / `isContourConvex` / `boundingRect`
(`app.component.ts:166-173`): the approximated polygon's vertex count
(`approx.size().height`), its convexity flag, and its native-pixel bounding
rectangle. -/
structure Approx where
  vertexCount : Nat
  convex : Bool
  rect : Rect
deriving DecidableEq, Repr

/-- `containerWidth = 384` (`app.component.ts:23`). -/
def containerWidth : ℚ := 384

/-- `containerHeight = 272` (`app.component.ts:24`). -/
def containerHeight : ℚ := 272

/-- `minFocusThreshold = 180` (`app.component.ts:27`). -/
def minFocusThreshold : ℚ := 180

/-- `minAreaFraction = 0.6` (`app.component.ts:28`). -/
def minAreaFraction : ℚ := 6/10

/-- `maxAreaFraction = 0.9` (`app.component.ts:29`). -/
def maxAreaFraction : ℚ := 9/10

/-- `minAspectRatio = 1.4` (`app.component.ts:30`). -/
def minAspectRatio : ℚ := 14/10

/-- `maxAspectRatio = 1.7` (`app.component.ts:31`). -/
def maxAspectRatio : ℚ := 17/10

/-- `positionThreshold = 10`, local constant of `areRectsSimilar`
(`app.component.ts:307`). -/
def positionThreshold : ℚ := 10

/-- `sizeThreshold = 20`, local constant of `areRectsSimilar`
(`app.component.ts:308`). -/
def sizeThreshold : ℚ := 20

/-- `stabilityThreshold = 5` (`app.component.ts:36`). -/
def stabilityThreshold : Nat := 5

/-- `Math.abs` on a rational value. -/
def mathAbs (q : ℚ) : ℚ := if q < 0 then -q else q

/-- `areRectsSimilar` (`app.component.ts:306-315`): position deltas strictly
below `positionThreshold`, size deltas strictly below `sizeThreshold`. -/
def areRectsSimilar (rect1 rect2 : Rect) : Bool :=
  decide (mathAbs (rect1.x - rect2.x) < positionThreshold) &&
  decide (mathAbs (rect1.y - rect2.y) < positionThreshold) &&
  decide (mathAbs (rect1.width - rect2.width) < sizeThreshold) &&
  decide (mathAbs (rect1.height - rect2.height) < sizeThreshold)

/-- The mutable component fields driving stabilization and the detection
loop: `previousRect`, `consecutiveStableFrames` (`app.component.ts:34-35`),
whether `detectionTimer` is live (`app.component.ts:15`), the number of
`capturePhoto()` invocations performed so far, and `iterations`
(`app.component.ts:16`). -/
structure TrackerState where
  previousRect : Option Rect
  consecutiveStableFrames : Nat
  detectionTimer : Bool
  captures : Nat
  iterations : Nat
deriving DecidableEq, Repr

/-- `stabilizeDetection` (`app.component.ts:275-301`):
`if (!previousRect || areRectsSimilar(previousRect, currentRect))` the counter
is incremented, otherwise it is set to `0`; then `previousRect = currentRect`;
then if `consecutiveStableFrames >= stabilityThreshold` the final rectangle is
drawn, `capturePhoto()` runs and the interval timer is cleared. -/
def stabilizeDetection (s : TrackerState) (currentRect : Rect) : TrackerState :=
  let n :=
    if (match s.previousRect with
        | none => true
        | some p => areRectsSimilar p currentRect) then
      s.consecutiveStableFrames + 1
    else 0
  let s1 : TrackerState :=
    { s with consecutiveStableFrames := n, previousRect := some currentRect }
  if stabilityThreshold ≤ n then
    { s1 with captures := s1.captures + 1, detectionTimer := false }
  else s1

/-- State effect of the tail of `processFrame` (`app.component.ts:220-227`):
with a best candidate, `stabilizeDetection` runs; with none, only a feedback
message is shown and the tracker fields are not touched. -/
def processFrameUpdate (s : TrackerState) (largestRect : Option Rect) : TrackerState :=
  match largestRect with
  | some r => stabilizeDetection s r
  | none => s

/-- One firing of the `setInterval` callback of `startDetectionLoop`
(`app.component.ts:79-91`), abstracted over the tick's best-candidate result:
the callback only fires while the timer is live; it increments `iterations`,
processes the frame while `iterations < 12000`, and otherwise clears the
timer. -/
def tick (s : TrackerState) (candidate : Option Rect) : TrackerState :=
  if s.detectionTimer then
    let s1 : TrackerState := { s with iterations := s.iterations + 1 }
    if s1.iterations < 12000 then processFrameUpdate s1 candidate
    else { s1 with detectionTimer := false }
  else s

/-- The rescaling of a native-pixel bounding rectangle into container space
(`app.component.ts:176-179`): `x`/`width` divided by `scaleX`, `y`/`height`
divided by `scaleY`. -/
def scaleRect (scaleX scaleY : ℚ) (r : Rect) : Rect :=
  { x := r.x / scaleX, y := r.y / scaleY, width := r.width / scaleX, height := r.height / scaleY }

/-- `isInsideContainer` (`app.component.ts:182-186`): the scaled rectangle
lies completely inside `[0, containerWidth] × [0, containerHeight]`. -/
def isInsideContainer (r : Rect) : Bool :=
  decide (0 ≤ r.x) && decide (0 ≤ r.y) &&
  decide (r.x + r.width ≤ containerWidth) && decide (r.y + r.height ≤ containerHeight)

/-- `rectArea = scaledWidth * scaledHeight` (`app.component.ts:195`). -/
def rectArea (r : Rect) : ℚ := r.width * r.height

/-- `areaRatio = rectArea / (containerWidth * containerHeight)`
(`app.component.ts:196`). -/
def areaRatio (r : Rect) : ℚ := rectArea r / (containerWidth * containerHeight)

/-- `aspectRatio = scaledWidth / scaledHeight` (`app.component.ts:197`). -/
def aspectRatio (r : Rect) : ℚ := r.width / r.height

/-- The four area-fraction / aspect-ratio comparisons of the acceptance
condition (`app.component.ts:201-204`). -/
def passesBounds (r : Rect) : Bool :=
  decide (minAreaFraction ≤ areaRatio r) && decide (areaRatio r ≤ maxAreaFraction) &&
  decide (minAspectRatio ≤ aspectRatio r) && decide (aspectRatio r ≤ maxAspectRatio)

/-- The full geometric acceptance test applied to a scaled rectangle: the
containment check of `app.component.ts:182-192` followed by the area and
aspect comparisons of `app.component.ts:201-204`. -/
def passesGeometry (r : Rect) : Bool :=
  isInsideContainer r && passesBounds r

/-- One iteration of the contour loop of `processFrame`
(`app.component.ts:162-218`), acting on the `(largestRect, maxArea)`
accumulator: contours whose approximated polygon is not a 4-vertex convex
polygon are skipped; otherwise the bounding rectangle is scaled, discarded
when not inside the container, and adopted as the new best candidate when the
area/aspect comparisons pass and its area strictly exceeds `maxArea`. -/
def selectStep (scaleX scaleY : ℚ) (acc : Option Rect × ℚ) (a : Approx) : Option Rect × ℚ :=
  if a.vertexCount = 4 && a.convex then
    let scaled := scaleRect scaleX scaleY a.rect
    if !(isInsideContainer scaled) then acc
    else if passesBounds scaled && decide (acc.2 < rectArea scaled) then
      (some scaled, rectArea scaled)
    else acc
  else acc

/-- The candidate-selection loop of `processFrame`
(`app.component.ts:159-218`): fold `selectStep` over all contours starting
from `largestRect = null`, `maxArea = 0`, and return the final `largestRect`. -/
def selectBest (scaleX scaleY : ℚ) (approxes : List Approx) : Option Rect :=
  (approxes.foldl (selectStep scaleX scaleY) (none, 0)).1

/-- Modelled from the spec (§4.3, "keep the one with the strictly largest
width × height; ties keep the first encountered"): the update of a running
best rectangle by one accepted rectangle. -/
def keepLargest (acc : Option Rect × ℚ) (r : Rect) : Option Rect × ℚ :=
  if decide (acc.2 < rectArea r) then (some r, rectArea r) else acc

/-- Modelled from the spec (§4.3): the scaled rectangles of the contours that
survive the 4-vertex/convexity filter and every geometric test. -/
def acceptedRects (scaleX scaleY : ℚ) (approxes : List Approx) : List Rect :=
  approxes.filterMap fun a =>
    if a.vertexCount = 4 && a.convex then
      let scaled := scaleRect scaleX scaleY a.rect
      if passesGeometry scaled then some scaled else none
    else none

/-- Modelled from the spec (§4.3): `selectBest` as the spec words it — filter
the accepted rectangles, then keep the first one of strictly largest area. -/
def specSelectBest (scaleX scaleY : ℚ) (approxes : List Approx) : Option Rect :=
  ((acceptedRects scaleX scaleY approxes).foldl keepLargest (none, 0)).1

/-- The summation loop of `measureSharpness` (`app.component.ts:253-256`). -/
def sumLoop : List ℚ → ℚ → ℚ
  | [], acc => acc
  | d :: rest, acc => sumLoop rest (acc + d)

/-- The squared-deviation loop of `measureSharpness`
(`app.component.ts:260-264`). -/
def varLoop (mean : ℚ) : List ℚ → ℚ → ℚ
  | [], acc => acc
  | d :: rest, acc => varLoop mean rest (acc + (d - mean) * (d - mean))

/-- `measureSharpness` (`app.component.ts:242-269`), over the Laplacian
response values `lap.data64F` of the grayscale frame (the `cv.Laplacian`
call itself is an external collaborator): `0` on an empty data array,
otherwise the variance of the values around their arithmetic mean, both
divided by the element count. -/
def measureSharpness (data : List ℚ) : ℚ :=
  if data.length = 0 then 0
  else
    let mean := sumLoop data 0 / (data.length : ℚ)
    let varianceSum := varLoop mean data 0
    varianceSum / (data.length : ℚ)

/-- Modelled from the spec (§4.1): the population variance — mean squared
deviation from the arithmetic mean, denominator the element count — with the
`0`-on-empty guard. -/
def populationVariance (data : List ℚ) : ℚ :=
  if data.length = 0 then 0
  else
    let mean := data.sum / (data.length : ℚ)
    ((data.map fun d => (d - mean) * (d - mean)).sum) / (data.length : ℚ)

/-- The per-tick OpenCV resources handled by `processFrame`
(`app.component.ts:117-237`): the frame itself, the intermediate Mats, and
the per-contour approximated polygon Mats (indexed by loop position). -/
inductive Res where
  | frame
  | gray
  | blurred
  | edges
  | kernel
  | contours
  | hierarchy
  | approx (i : Nat)
deriving DecidableEq, Repr

/-- Observable events of one `processFrame` run: resource allocations and
releases, the OpenCV processing calls, feedback display, the
`stabilizeDetection` call and the `capturePhoto` call. -/
inductive Ev where
  | alloc (r : Res)
  | release (r : Res)
  | cvtColorOp
  | gaussianBlurOp
  | cannyOp
  | morphologyOp
  | findContoursOp
  | approxPolyOp (i : Nat)
  | showFeedbackMsg
  | hideFeedbackMsg
  | stabilityUpdate
  | captureOp
deriving DecidableEq, Repr

/-- Events of iteration `i` of the contour loop (`app.component.ts:162-218`):
a fresh `approx` Mat is allocated and `approxPolyDP` runs; the Mat is freed
on both paths inside the 4-vertex-convex branch (`app.component.ts:190` and
`app.component.ts:216`), and on no other path. -/
def contourTrace (i : Nat) (a : Approx) : List Ev :=
  [Ev.alloc (Res.approx i), Ev.approxPolyOp i] ++
  (if a.vertexCount = 4 && a.convex then [Ev.release (Res.approx i)] else [])

/-- `processFrame` (`app.component.ts:117-237`) as a state transformer with
an event trace, abstracted over the data the external OpenCV calls produce:
the sharpness sample of the grayscale frame and the per-contour approximated
polygons. The blurry branch (`app.component.ts:126-133`) reports, frees
`frame` and `gray`, and returns; otherwise the full chain runs, the contour
loop selects the best candidate, the tail branches on it, and the seven
intermediate resources are freed (`app.component.ts:230-236`). -/
def processFrameTrace (s : TrackerState) (sharpnessValue : ℚ) (scaleX scaleY : ℚ)
    (approxes : List Approx) : TrackerState × List Ev :=
  let grayEvs := [Ev.alloc Res.gray, Ev.cvtColorOp]
  if sharpnessValue < minFocusThreshold then
    (s, grayEvs ++ [Ev.showFeedbackMsg, Ev.release Res.frame, Ev.release Res.gray])
  else
    let chainEvs := [Ev.alloc Res.blurred, Ev.gaussianBlurOp, Ev.alloc Res.edges, Ev.cannyOp,
      Ev.alloc Res.kernel, Ev.morphologyOp, Ev.alloc Res.contours, Ev.alloc Res.hierarchy,
      Ev.findContoursOp]
    let loopEvs := (approxes.enum.map fun p => contourTrace p.1 p.2).flatten
    let largestRect := selectBest scaleX scaleY approxes
    let tailEvs :=
      match largestRect with
      | some r =>
        [Ev.hideFeedbackMsg, Ev.stabilityUpdate] ++
          (if stabilityThreshold ≤ (stabilizeDetection s r).consecutiveStableFrames then
            [Ev.captureOp] else [])
      | none => [Ev.showFeedbackMsg]
    let releaseEvs := [Ev.release Res.frame, Ev.release Res.gray, Ev.release Res.blurred,
      Ev.release Res.edges, Ev.release Res.kernel, Ev.release Res.contours,
      Ev.release Res.hierarchy]
    (processFrameUpdate s largestRect, grayEvs ++ chainEvs ++ loopEvs ++ tailEvs ++ releaseEvs)

theorem mathAbs_eq_abs (q : ℚ) : mathAbs q = |q| := by
  unfold mathAbs
  rcases lt_or_le q 0 with h | h
  · rw [if_pos h, abs_of_neg h]
  · rw [if_neg (not_lt.mpr h), abs_of_nonneg h]

theorem sumLoop_eq (l : List ℚ) (acc : ℚ) : sumLoop l acc = acc + l.sum := by
  induction l generalizing acc with
  | nil => simp [sumLoop]
  | cons d rest ih => rw [sumLoop, ih, List.sum_cons]; ring

theorem varLoop_eq (m : ℚ) (l : List ℚ) (acc : ℚ) :
    varLoop m l acc = acc + (l.map fun d => (d - m) * (d - m)).sum := by
  induction l generalizing acc with
  | nil => simp [varLoop]
  | cons d rest ih => rw [varLoop, ih, List.map_cons, List.sum_cons]; ring

/-- C9: `areRectsSimilar r1 r2` holds exactly when both position deltas are
strictly below `10` and both size deltas are strictly below `20`. -/
theorem areRectsSimilar_iff (rect1 rect2 : Rect) :
    areRectsSimilar rect1 rect2 = true ↔
      (|rect1.x - rect2.x| < 10 ∧ |rect1.y - rect2.y| < 10 ∧
       |rect1.width - rect2.width| < 20 ∧ |rect1.height - rect2.height| < 20) := by
  simp [areRectsSimilar, mathAbs_eq_abs, positionThreshold, sizeThreshold, and_assoc]

/-- C10: the similarity test is symmetric in its two rectangles and holds
reflexively on every rectangle. -/
theorem areRectsSimilar_symm_refl :
    (∀ r1 r2 : Rect, areRectsSimilar r1 r2 = areRectsSimilar r2 r1) ∧
    (∀ r : Rect, areRectsSimilar r r = true) := by
  constructor
  · intro r1 r2
    simp only [areRectsSimilar, mathAbs_eq_abs]
    rw [abs_sub_comm r1.x r2.x, abs_sub_comm r1.y r2.y,
      abs_sub_comm r1.width r2.width, abs_sub_comm r1.height r2.height]
  · intro r
    simp [areRectsSimilar, mathAbs_eq_abs, positionThreshold, sizeThreshold]

/-- C1 (counterexample): with a stored rectangle and a streak of 3, a tick
with no accepted candidate leaves `consecutiveStableFrames` at 3 — the claim
that it is reset to 0 is false on the code. -/
theorem noCandidate_reset_counterexample :
    (processFrameUpdate ⟨some ⟨0, 0, 100, 100⟩, 3, true, 0, 0⟩ none).consecutiveStableFrames ≠ 0 := by
  intro h
  simp [processFrameUpdate] at h

/-- C1 (amended): on a tick with no accepted candidate rectangle, the tracker
state is completely unchanged — `consecutiveStableFrames` keeps its value (it
is not zeroed) and `previousRect` is untouched. -/
theorem processFrameUpdate_noCandidate (s : TrackerState) : processFrameUpdate s none = s := rfl

/-- C2 (counterexample): with `previousRect = (0,0,100,100)` and a streak of
3, a dissimilar candidate `(300,0,100,100)` drives `consecutiveStableFrames`
to 0, not to 1 as the claim states. -/
theorem dissimilar_restart_counterexample :
    areRectsSimilar ⟨0, 0, 100, 100⟩ ⟨300, 0, 100, 100⟩ = false ∧
    (stabilizeDetection ⟨some ⟨0, 0, 100, 100⟩, 3, true, 0, 0⟩
        ⟨300, 0, 100, 100⟩).consecutiveStableFrames ≠ 1 := by
  have hd : areRectsSimilar ⟨0, 0, 100, 100⟩ ⟨300, 0, 100, 100⟩ = false := by
    simp [areRectsSimilar, mathAbs_eq_abs, positionThreshold, sizeThreshold, abs_lt]
    norm_num
  refine ⟨hd, ?_⟩
  simp [stabilizeDetection, hd, stabilityThreshold]

/-- C2 (amended): when a candidate rectangle is present but dissimilar to the
stored `previousRect`, the tracker sets `consecutiveStableFrames` to 0 and
updates `previousRect` to the new candidate. -/
theorem stabilizeDetection_dissimilar (s : TrackerState) (p currentRect : Rect)
    (hp : s.previousRect = some p) (hd : areRectsSimilar p currentRect = false) :
    (stabilizeDetection s currentRect).consecutiveStableFrames = 0 ∧
    (stabilizeDetection s currentRect).previousRect = some currentRect := by
  simp [stabilizeDetection, hp, hd, stabilityThreshold]

/-- C2 (witness for the amended claim). -/
theorem stabilizeDetection_dissimilar_witness :
    (stabilizeDetection ⟨some ⟨0, 0, 100, 100⟩, 2, true, 0, 7⟩
        ⟨200, 0, 100, 100⟩).consecutiveStableFrames = 0 ∧
    (stabilizeDetection ⟨some ⟨0, 0, 100, 100⟩, 2, true, 0, 7⟩
        ⟨200, 0, 100, 100⟩).previousRect = some ⟨200, 0, 100, 100⟩ :=
  stabilizeDetection_dissimilar _ _ _ rfl
    (by simp [areRectsSimilar, mathAbs_eq_abs, positionThreshold, sizeThreshold, abs_lt]
        norm_num)

/-- C6: `measureSharpness` returns `0` on an empty response array, and on
every response array it equals the population variance — the mean squared
deviation from the arithmetic mean, with the element count as denominator. -/
theorem measureSharpness_popVariance :
    measureSharpness [] = 0 ∧
    ∀ data : List ℚ, measureSharpness data = populationVariance data := by
  refine ⟨rfl, fun data => ?_⟩
  unfold measureSharpness populationVariance
  by_cases h : data.length = 0
  · simp [h]
  · simp only [h, if_false, sumLoop_eq, varLoop_eq, zero_add]

/-- C4: the area-fraction bounds are inclusive — a rectangle whose
`areaRatio` is exactly `minAreaFraction` passes the full geometric test
whenever containment and the aspect-ratio bounds hold, any rectangle with
`areaRatio` strictly above `maxAreaFraction` is rejected, and `areaRatio` is
the rectangle area divided by the container area. -/
theorem areaFraction_bounds :
    (∀ r : Rect, isInsideContainer r = true →
      minAspectRatio ≤ aspectRatio r → aspectRatio r ≤ maxAspectRatio →
      areaRatio r = minAreaFraction → passesGeometry r = true) ∧
    (∀ r : Rect, maxAreaFraction < areaRatio r → passesGeometry r = false) ∧
    (∀ r : Rect, areaRatio r = r.width * r.height / (containerWidth * containerHeight)) := by
  refine ⟨fun r hin hmin hmax har => ?_, fun r hgt => ?_, fun r => rfl⟩
  · simp [passesGeometry, passesBounds, hin, har, hmin, hmax,
      minAreaFraction, maxAreaFraction]
    norm_num
  · have hle : ¬ (areaRatio r ≤ maxAreaFraction) := not_le.mpr hgt
    simp [passesGeometry, passesBounds, hle]

/-- C4 (witness): the rectangle `(0, 0, 39168/125, 200)` has `areaRatio`
exactly `0.6` and is accepted; the rectangle `(0, 0, 384, 272)` has
`areaRatio = 1 > 0.9` and is rejected. -/
theorem areaFraction_bounds_witness :
    passesGeometry ⟨0, 0, 39168/125, 200⟩ = true ∧
    passesGeometry ⟨0, 0, 384, 272⟩ = false :=
  ⟨areaFraction_bounds.1 ⟨0, 0, 39168/125, 200⟩
      (by simp [isInsideContainer, containerWidth, containerHeight]; norm_num)
      (by norm_num [aspectRatio, minAspectRatio])
      (by norm_num [aspectRatio, maxAspectRatio])
      (by norm_num [areaRatio, rectArea, containerWidth, containerHeight, minAreaFraction]),
   areaFraction_bounds.2.1 ⟨0, 0, 384, 272⟩
      (by norm_num [areaRatio, rectArea, containerWidth, containerHeight, maxAreaFraction])⟩

theorem selectStep_eq (sx sy : ℚ) (acc : Option Rect × ℚ) (a : Approx) :
    selectStep sx sy acc a =
      if a.vertexCount = 4 && a.convex then
        (if passesGeometry (scaleRect sx sy a.rect) then
          keepLargest acc (scaleRect sx sy a.rect)
        else acc)
      else acc := by
  unfold selectStep keepLargest passesGeometry
  by_cases hq : a.vertexCount = 4 ∧ a.convex = true
  · by_cases hin : isInsideContainer (scaleRect sx sy a.rect) = true
    · by_cases hb : passesBounds (scaleRect sx sy a.rect) = true
      · by_cases hlt : acc.2 < rectArea (scaleRect sx sy a.rect)
        · simp [hq, hin, hb, hlt]
        · simp [hq, hin, hb, hlt]
      · simp [hq, hin, hb]
    · rw [Bool.not_eq_true] at hin
      simp [hq, hin]
  · simp [hq]

theorem foldl_selectStep (sx sy : ℚ) (l : List Approx) :
    ∀ acc : Option Rect × ℚ,
      l.foldl (selectStep sx sy) acc = (acceptedRects sx sy l).foldl keepLargest acc := by
  induction l with
  | nil => intro acc; simp [acceptedRects]
  | cons a rest ih =>
    intro acc
    by_cases hq : a.vertexCount = 4 ∧ a.convex = true
    · by_cases hp : passesGeometry (scaleRect sx sy a.rect) = true
      · have e1 : selectStep sx sy acc a = keepLargest acc (scaleRect sx sy a.rect) := by
          rw [selectStep_eq]; simp [hq, hp]
        have e2 : acceptedRects sx sy (a :: rest) =
            scaleRect sx sy a.rect :: acceptedRects sx sy rest := by
          simp [acceptedRects, List.filterMap_cons, hq, hp]
        rw [List.foldl_cons, e1, e2, List.foldl_cons]
        exact ih _
      · have e1 : selectStep sx sy acc a = acc := by
          rw [selectStep_eq]; simp [hq, hp]
        have e2 : acceptedRects sx sy (a :: rest) = acceptedRects sx sy rest := by
          simp [acceptedRects, List.filterMap_cons, hq, hp]
        rw [List.foldl_cons, e1, e2]
        exact ih _
    · have e1 : selectStep sx sy acc a = acc := by
        rw [selectStep_eq]; simp [hq]
      have e2 : acceptedRects sx sy (a :: rest) = acceptedRects sx sy rest := by
        simp [acceptedRects, List.filterMap_cons, hq]
      rw [List.foldl_cons, e1, e2]
      exact ih _

theorem rectArea_pos_of_passes (r : Rect) (h : passesGeometry r = true) : 0 < rectArea r := by
  have hb : minAreaFraction ≤ areaRatio r := by
    simp only [passesGeometry, passesBounds, Bool.and_eq_true, decide_eq_true_eq] at h
    exact h.2.1.1.1
  rw [areaRatio] at hb
  have hc : (0:ℚ) < containerWidth * containerHeight := by
    norm_num [containerWidth, containerHeight]
  have hle := (le_div_iff₀ hc).mp hb
  have h0 : (0:ℚ) < minAreaFraction * (containerWidth * containerHeight) := by
    norm_num [minAreaFraction, containerWidth, containerHeight]
  linarith

/-- C5: the contour loop's selection agrees with the spec's description —
filter the accepted rectangles, then keep the first one of strictly largest
`width × height` —, and for two accepted candidates of distinct area it
returns the larger one in either input order. -/
theorem selectBest_keeps_largest :
    (∀ (sx sy : ℚ) (l : List Approx), selectBest sx sy l = specSelectBest sx sy l) ∧
    (∀ (sx sy : ℚ) (a1 a2 : Approx),
      (a1.vertexCount = 4 ∧ a1.convex = true) →
      (a2.vertexCount = 4 ∧ a2.convex = true) →
      passesGeometry (scaleRect sx sy a1.rect) = true →
      passesGeometry (scaleRect sx sy a2.rect) = true →
      rectArea (scaleRect sx sy a1.rect) < rectArea (scaleRect sx sy a2.rect) →
      selectBest sx sy [a1, a2] = some (scaleRect sx sy a2.rect) ∧
      selectBest sx sy [a2, a1] = some (scaleRect sx sy a2.rect)) := by
  constructor
  · intro sx sy l
    unfold selectBest specSelectBest
    rw [foldl_selectStep]
  · intro sx sy a1 a2 hq1 hq2 hp1 hp2 harea
    have pos1 : 0 < rectArea (scaleRect sx sy a1.rect) := rectArea_pos_of_passes _ hp1
    have pos2 : 0 < rectArea (scaleRect sx sy a2.rect) := rectArea_pos_of_passes _ hp2
    have nlt : ¬ (rectArea (scaleRect sx sy a2.rect) < rectArea (scaleRect sx sy a1.rect)) :=
      not_lt.mpr (le_of_lt harea)
    have st1 : selectStep sx sy (none, 0) a1 =
        (some (scaleRect sx sy a1.rect), rectArea (scaleRect sx sy a1.rect)) := by
      rw [selectStep_eq]; simp [hq1, hp1, keepLargest, pos1]
    have st2 : selectStep sx sy
        (some (scaleRect sx sy a1.rect), rectArea (scaleRect sx sy a1.rect)) a2 =
        (some (scaleRect sx sy a2.rect), rectArea (scaleRect sx sy a2.rect)) := by
      rw [selectStep_eq]; simp [hq2, hp2, keepLargest, harea]
    have st1b : selectStep sx sy (none, 0) a2 =
        (some (scaleRect sx sy a2.rect), rectArea (scaleRect sx sy a2.rect)) := by
      rw [selectStep_eq]; simp [hq2, hp2, keepLargest, pos2]
    have st2b : selectStep sx sy
        (some (scaleRect sx sy a2.rect), rectArea (scaleRect sx sy a2.rect)) a1 =
        (some (scaleRect sx sy a2.rect), rectArea (scaleRect sx sy a2.rect)) := by
      rw [selectStep_eq]; simp [hq1, hp1, keepLargest, nlt]
    constructor
    · unfold selectBest
      rw [List.foldl_cons, st1, List.foldl_cons, st2, List.foldl_nil]
    · unfold selectBest
      rw [List.foldl_cons, st1b, List.foldl_cons, st2b, List.foldl_nil]

/-- C5 (witness): two accepted candidates with areas 64000 and 74800 — the
larger is selected in both input orders. -/
theorem selectBest_keeps_largest_witness :
    selectBest 1 1 [⟨4, true, ⟨0, 0, 320, 200⟩⟩, ⟨4, true, ⟨0, 0, 340, 220⟩⟩] =
      some (scaleRect 1 1 ⟨0, 0, 340, 220⟩) ∧
    selectBest 1 1 [⟨4, true, ⟨0, 0, 340, 220⟩⟩, ⟨4, true, ⟨0, 0, 320, 200⟩⟩] =
      some (scaleRect 1 1 ⟨0, 0, 340, 220⟩) :=
  selectBest_keeps_largest.2 1 1 ⟨4, true, ⟨0, 0, 320, 200⟩⟩ ⟨4, true, ⟨0, 0, 340, 220⟩⟩
    ⟨rfl, rfl⟩ ⟨rfl, rfl⟩
    (by norm_num [passesGeometry, isInsideContainer, passesBounds, scaleRect, areaRatio,
      rectArea, aspectRatio, containerWidth, containerHeight, minAreaFraction,
      maxAreaFraction, minAspectRatio, maxAspectRatio])
    (by norm_num [passesGeometry, isInsideContainer, passesBounds, scaleRect, areaRatio,
      rectArea, aspectRatio, containerWidth, containerHeight, minAreaFraction,
      maxAreaFraction, minAspectRatio, maxAspectRatio])
    (by norm_num [rectArea, scaleRect])

/-- C3: starting from the initial tracker state (`previousRect = none`,
counter 0, timer live, no captures yet), five consecutive ticks with accepted
rectangles each similar to the previous one drive `consecutiveStableFrames`
through 1, 2, 3, 4, 5; `capturePhoto` fires exactly once, on the fifth tick
and not before, the timer is cleared there, and once the timer is cleared no
tick changes the state again. -/
theorem stability_streak_capture (r1 r2 r3 r4 r5 : Rect)
    (h12 : areRectsSimilar r1 r2 = true) (h23 : areRectsSimilar r2 r3 = true)
    (h34 : areRectsSimilar r3 r4 = true) (h45 : areRectsSimilar r4 r5 = true) :
    tick ⟨none, 0, true, 0, 0⟩ (some r1) = ⟨some r1, 1, true, 0, 1⟩ ∧
    tick ⟨some r1, 1, true, 0, 1⟩ (some r2) = ⟨some r2, 2, true, 0, 2⟩ ∧
    tick ⟨some r2, 2, true, 0, 2⟩ (some r3) = ⟨some r3, 3, true, 0, 3⟩ ∧
    tick ⟨some r3, 3, true, 0, 3⟩ (some r4) = ⟨some r4, 4, true, 0, 4⟩ ∧
    tick ⟨some r4, 4, true, 0, 4⟩ (some r5) = ⟨some r5, 5, false, 1, 5⟩ ∧
    ∀ c : Option Rect, tick ⟨some r5, 5, false, 1, 5⟩ c = ⟨some r5, 5, false, 1, 5⟩ := by
  refine ⟨?_, ?_, ?_, ?_, ?_, fun c => rfl⟩
  · simp [tick, processFrameUpdate, stabilizeDetection, stabilityThreshold]
  · simp [tick, processFrameUpdate, stabilizeDetection, stabilityThreshold, h12]
  · simp [tick, processFrameUpdate, stabilizeDetection, stabilityThreshold, h23]
  · simp [tick, processFrameUpdate, stabilizeDetection, stabilityThreshold, h34]
  · simp [tick, processFrameUpdate, stabilizeDetection, stabilityThreshold, h45]

/-- C3 (witness): five ticks with one and the same rectangle. -/
theorem stability_streak_capture_witness :
    tick ⟨none, 0, true, 0, 0⟩ (some ⟨0, 0, 320, 200⟩) = ⟨some ⟨0, 0, 320, 200⟩, 1, true, 0, 1⟩ ∧
    tick ⟨some ⟨0, 0, 320, 200⟩, 1, true, 0, 1⟩ (some ⟨0, 0, 320, 200⟩) =
      ⟨some ⟨0, 0, 320, 200⟩, 2, true, 0, 2⟩ ∧
    tick ⟨some ⟨0, 0, 320, 200⟩, 2, true, 0, 2⟩ (some ⟨0, 0, 320, 200⟩) =
      ⟨some ⟨0, 0, 320, 200⟩, 3, true, 0, 3⟩ ∧
    tick ⟨some ⟨0, 0, 320, 200⟩, 3, true, 0, 3⟩ (some ⟨0, 0, 320, 200⟩) =
      ⟨some ⟨0, 0, 320, 200⟩, 4, true, 0, 4⟩ ∧
    tick ⟨some ⟨0, 0, 320, 200⟩, 4, true, 0, 4⟩ (some ⟨0, 0, 320, 200⟩) =
      ⟨some ⟨0, 0, 320, 200⟩, 5, false, 1, 5⟩ ∧
    ∀ c : Option Rect, tick ⟨some ⟨0, 0, 320, 200⟩, 5, false, 1, 5⟩ c =
      ⟨some ⟨0, 0, 320, 200⟩, 5, false, 1, 5⟩ :=
  have hsim : areRectsSimilar ⟨0, 0, 320, 200⟩ ⟨0, 0, 320, 200⟩ = true := by
    simp [areRectsSimilar, mathAbs_eq_abs, positionThreshold, sizeThreshold]
  stability_streak_capture _ _ _ _ _ hsim hsim hsim hsim

/-- C7: when the sharpness sample is strictly below `minFocusThreshold`, the
tick ends right after the feedback message and the release of `frame` and
`gray` — no blur, Canny, morphology, contour extraction, polygon
approximation, stability update or capture happens, and the tracker state
(timer included) is unchanged, so the detection loop continues. -/
theorem processFrame_blurry (s : TrackerState) (sharpnessValue sx sy : ℚ)
    (approxes : List Approx) (h : sharpnessValue < minFocusThreshold) :
    processFrameTrace s sharpnessValue sx sy approxes =
      (s, [Ev.alloc Res.gray, Ev.cvtColorOp, Ev.showFeedbackMsg,
           Ev.release Res.frame, Ev.release Res.gray]) ∧
    (∀ e ∈ (processFrameTrace s sharpnessValue sx sy approxes).2,
      e ≠ Ev.gaussianBlurOp ∧ e ≠ Ev.cannyOp ∧ e ≠ Ev.morphologyOp ∧
      e ≠ Ev.findContoursOp ∧ (∀ i, e ≠ Ev.approxPolyOp i) ∧
      e ≠ Ev.stabilityUpdate ∧ e ≠ Ev.captureOp) ∧
    (processFrameTrace s sharpnessValue sx sy approxes).1 = s := by
  have h1 : processFrameTrace s sharpnessValue sx sy approxes =
      (s, [Ev.alloc Res.gray, Ev.cvtColorOp, Ev.showFeedbackMsg,
           Ev.release Res.frame, Ev.release Res.gray]) := by
    unfold processFrameTrace
    rw [if_pos h]
    rfl
  refine ⟨h1, ?_, by rw [h1]⟩
  rw [h1]
  intro e he
  simp only [List.mem_cons, List.not_mem_nil, or_false] at he
  rcases he with rfl | rfl | rfl | rfl | rfl <;> simp

/-- C7 (witness): a frame with sharpness 100 against the threshold 180. -/
theorem processFrame_blurry_witness :
    processFrameTrace ⟨none, 0, true, 0, 0⟩ 100 1 1 [] =
      ((⟨none, 0, true, 0, 0⟩ : TrackerState),
       [Ev.alloc Res.gray, Ev.cvtColorOp, Ev.showFeedbackMsg,
        Ev.release Res.frame, Ev.release Res.gray]) ∧
    (∀ e ∈ (processFrameTrace ⟨none, 0, true, 0, 0⟩ 100 1 1 []).2,
      e ≠ Ev.gaussianBlurOp ∧ e ≠ Ev.cannyOp ∧ e ≠ Ev.morphologyOp ∧
      e ≠ Ev.findContoursOp ∧ (∀ i, e ≠ Ev.approxPolyOp i) ∧
      e ≠ Ev.stabilityUpdate ∧ e ≠ Ev.captureOp) ∧
    (processFrameTrace ⟨none, 0, true, 0, 0⟩ 100 1 1 []).1 = ⟨none, 0, true, 0, 0⟩ :=
  processFrame_blurry ⟨none, 0, true, 0, 0⟩ 100 1 1 []
    (by norm_num [minFocusThreshold])

/-- C8 (failing input for the claim): a sharp frame (sharpness 200) with one
contour whose approximated polygon has 5 vertices — its `approx` Mat is
allocated once but never released, because `approx.delete()` sits inside the
4-vertex-convex branch of the contour loop. -/
theorem approx_polygon_leak :
    ((processFrameTrace ⟨none, 0, true, 0, 0⟩ 200 1 1
        [⟨5, false, ⟨0, 0, 100, 100⟩⟩]).2).count (Ev.alloc (Res.approx 0)) = 1 ∧
    ((processFrameTrace ⟨none, 0, true, 0, 0⟩ 200 1 1
        [⟨5, false, ⟨0, 0, 100, 100⟩⟩]).2).count (Ev.release (Res.approx 0)) = 0 := by
  have hs : ¬ ((200:ℚ) < minFocusThreshold) := by norm_num [minFocusThreshold]
  have ht : (processFrameTrace ⟨none, 0, true, 0, 0⟩ 200 1 1
      [⟨5, false, ⟨0, 0, 100, 100⟩⟩]).2 =
      [Ev.alloc Res.gray, Ev.cvtColorOp, Ev.alloc Res.blurred, Ev.gaussianBlurOp,
       Ev.alloc Res.edges, Ev.cannyOp, Ev.alloc Res.kernel, Ev.morphologyOp,
       Ev.alloc Res.contours, Ev.alloc Res.hierarchy, Ev.findContoursOp,
       Ev.alloc (Res.approx 0), Ev.approxPolyOp 0,
       Ev.showFeedbackMsg,
       Ev.release Res.frame, Ev.release Res.gray, Ev.release Res.blurred,
       Ev.release Res.edges, Ev.release Res.kernel, Ev.release Res.contours,
       Ev.release Res.hierarchy] := by
    unfold processFrameTrace
    rw [if_neg hs]
    rfl
  rw [ht]
  constructor <;> rfl
